import Mathlib

/-!
Verification of the folklore repository's Optional/Maybe and Result
container types against their documented behavior.

The embedding mirrors the source files:
* `TSVal` is a small universe of JavaScript runtime values, needed because
  the TypeScript `Optional.transform` decides map-vs-flatMap with a runtime
  `instanceof` test (`HasInstance`).
* Class instances are represented by their single stored field; callbacks
  (providers, transformers, handlers) are embedded as state transformers
  `σ → β × σ` over an arbitrary state type `σ`, so that "the callback is
  never invoked" is expressed as "the state is unchanged for every callback".
* TypeScript functions that can throw are embedded in `Except`.
-/

set_option autoImplicit false

namespace Folklore

/-- Universe of JavaScript runtime values, as needed by the TypeScript
variants: the two nullish sentinels, primitive values, and `Optional`
class instances (`optInst stored` is an `Optional` whose private
`value` field holds `stored`). -/
inductive TSVal where
  | jsNull
  | jsUndefined
  | num (n : Int)
  | str (s : String)
  | optInst (stored : TSVal)
deriving DecidableEq, Repr

/-- The JavaScript loose test `value == null`, true exactly on `null`
and `undefined`. -/
def TSVal.isNullish : TSVal → Bool
  | .jsNull => true
  | .jsUndefined => true
  | _ => false

namespace OptionalTS

/-- `Optional.HasInstance(value)` from `src/optional/optional.ts` and
`src/unnamed/part_004`: `value instanceof Optional`. -/
def HasInstance : TSVal → Bool
  | .optInst _ => true
  | _ => false

/-- `Optional.None()`: `new Optional()`, whose constructor defaults the
stored field to `undefined`. -/
def NoneMk : TSVal := .optInst .jsUndefined

/-- `Optional.Some(value)`: `new Optional(value)`; the overload signature
requires a non-nullish argument, which callers of this definition record
as a side condition. -/
def SomeMk (v : TSVal) : TSVal := .optInst v

/-- `Optional.FromNullable(value)`: `None()` when `value == null`,
`Some(value)` otherwise. -/
def FromNullable (v : TSVal) : TSVal :=
  if v.isNullish then NoneMk else SomeMk v

/-- `Optional.transform(transformer)` from `src/unnamed/part_004`
(lines 370-402, synchronous path), acting on the receiver's stored field:
if `this.value == null` return `Optional.None()`; otherwise invoke the
transformer once on the stored value, return its result as-is when
`Optional.HasInstance(result)` holds, and `Optional.FromNullable(result)`
otherwise. The transformer threads an arbitrary state `σ` so invocation
counts are observable. -/
def transform {σ : Type} (stored : TSVal) (transformer : TSVal → σ → TSVal × σ)
    (s : σ) : TSVal × σ :=
  if stored.isNullish then (NoneMk, s)
  else
    let r := transformer stored s
    if HasInstance r.1 then (r.1, r.2)
    else (FromNullable r.1, r.2)

/-- Argument to `Optional.otherwise`: either a plain default value or a
zero-argument provider closure, matching the overload signatures in
`src/optional/optional.ts`. -/
inductive Fallback (σ : Type) where
  | value (w : TSVal)
  | provider (p : σ → TSVal × σ)

/-- `Optional.otherwise(valueOrProvider)` from `src/optional/optional.ts`
(lines 133-148), acting on the receiver's stored field: if
`this.value != null` return it; otherwise call the argument if it is a
function, else return it directly. -/
def otherwise {σ : Type} (stored : TSVal) (fb : Fallback σ) (s : σ) : TSVal × σ :=
  if stored.isNullish = false then (stored, s)
  else
    match fb with
    | .provider p => p s
    | .value w => (w, s)

end OptionalTS

/-- Swift's `Result<Success, Failure>` sum type, receiver of the extension
methods in `src/Source/Result` and `src/unnamed/part_000`. -/
inductive SResult (α ε : Type) where
  | success (value : α)
  | failure (error : ε)
deriving DecidableEq, Repr

namespace SResult

/-- `Result.recover(_:)` from `src/Source/Result/ResultRecover.swift`
(lines 32-43): on `.success` return `self` without calling the recovery
closure; on `.failure(error)` call it once and wrap a non-nil result in
`.success`, keeping `.failure(error)` when it returns nil. The closure
threads an arbitrary state `σ` so invocation counts are observable. -/
def recover {α ε σ : Type} (r : SResult α ε) (recovery : ε → σ → Option α × σ)
    (s : σ) : SResult α ε × σ :=
  match r with
  | .success _ => (r, s)
  | .failure e =>
    match recovery e s with
    | (some recovered, s') => (.success recovered, s')
    | (none, s') => (.failure e, s')

/-- `Result.otherwise(_ default:)` from `src/unnamed/part_000`
(lines 26-33): the success value, or the eagerly passed default. -/
def otherwise {α ε : Type} (r : SResult α ε) (dflt : α) : α :=
  match r with
  | .success v => v
  | .failure _ => dflt

/-- `Result.otherwise(_ provider:)` from `src/unnamed/part_000`
(lines 53-60): the success value, or the result of calling the
zero-argument provider. -/
def otherwiseProvider {α ε σ : Type} (r : SResult α ε) (provider : σ → α × σ)
    (s : σ) : α × σ :=
  match r with
  | .success v => (v, s)
  | .failure _ => provider s

/-- `Result.otherwise(_ provider:)` with an error-receiving provider, from
`src/unnamed/part_000` (lines 82-89): the success value, or the result of
calling the provider with the captured failure value. -/
def otherwiseErrorProvider {α ε σ : Type} (r : SResult α ε)
    (provider : ε → σ → α × σ) (s : σ) : α × σ :=
  match r with
  | .success v => (v, s)
  | .failure e => provider e s

/-- `Result.when(success:failure:)` from
`src/Source/Result/ResultWhen.swift` (lines 100-111): run the success
action on the success value or the failure action on the error, then
return `self`. The `Void`-returning actions are embedded as state
transformers `σ → σ`. -/
def when {α ε σ : Type} (r : SResult α ε) (success_action : α → σ → σ)
    (failure_action : ε → σ → σ) (s : σ) : SResult α ε × σ :=
  match r with
  | .success v => (r, success_action v s)
  | .failure e => (r, failure_action e s)

/-- `Result.transmute()` from `src/Source/Result/ResultTransmute.swift`
(lines 27-34): the success value as an Optional, nil on failure. -/
def transmute {α ε : Type} (r : SResult α ε) : Option α :=
  match r with
  | .success v => some v
  | .failure _ => none

/-- `TransmuteTarget` from `src/Source/Transmute/TransmuteTarget.swift`:
a one-case enum selecting the error payload. -/
inductive TransmuteTarget where
  | error
deriving DecidableEq

/-- `Result.transmute(_ target:)` from
`src/Source/Result/ResultTransmute.swift` (lines 54-61): the error value
as an Optional, nil on success. -/
def transmuteTarget {α ε : Type} (r : SResult α ε) (_ : TransmuteTarget) :
    Option ε :=
  match r with
  | .success _ => none
  | .failure e => some e

end SResult

/-- `Optional.transmute(as error:)` from
`src/Source/Optional/OptionalTransform.swift` (lines 295-302): `.some`
becomes `.success`, `.none` becomes `.failure(error)`; the error argument
is a plain (eagerly evaluated) value. -/
def Option.transmute {α ε : Type} (o : Option α) (error : ε) : SResult α ε :=
  match o with
  | some value => .success value
  | none => .failure error

/-- A value thrown by JavaScript code: an `Error` object (with its
message), a thrown string, or a thrown number. -/
inductive JSError where
  | errObj (msg : String)
  | thrownStr (s : String)
  | thrownNum (n : Int)
deriving DecidableEq, Repr

/-- The `ResultError` type of `src/result/result.ts`: `string | Error`. -/
inductive ResultError where
  | errVal (msg : String)
  | msgVal (s : String)
deriving DecidableEq, Repr

/-- The capture step `error instanceof Error ? error : String(error)`
shared by `Result.Try` and `Result.FromPromise` in `src/result/result.ts`:
`Error` objects are kept, anything else is converted with `String(...)`. -/
def captureThrown : JSError → ResultError
  | .errObj m => .errVal m
  | .thrownStr s => .msgVal s
  | .thrownNum n => .msgVal (toString n)

/-- The `Result<Type>` class of `src/result/result.ts`: a private
constructor storing a `success` flag plus the `value` and `error` slots
(`Option.none` models an `undefined` slot). -/
structure ResultTS (α : Type) where
  success : Bool
  value : Option α
  error : Option ResultError
deriving DecidableEq, Repr

namespace ResultTS

/-- `Result.Ok(value?)` from `src/result/result.ts` (lines 473-475):
`new Result(true, value, undefined)`; `none` models the omitted-value
(void) form. -/
def Ok {α : Type} (v : Option α) : ResultTS α := ⟨true, v, none⟩

/-- `Result.Error(error)` from `src/result/result.ts` (lines 498-500):
`new Result(false, undefined, error)`. -/
def Error {α : Type} (e : ResultError) : ResultTS α := ⟨false, none, some e⟩

/-- `Result.isOk()` from `src/result/result.ts` (lines 98-100): the stored
`success` flag. -/
def isOk {α : Type} (r : ResultTS α) : Bool := r.success

/-- `Result.isError()` from `src/result/result.ts` (lines 118-120):
`!this.isOk()`. -/
def isError {α : Type} (r : ResultTS α) : Bool := !r.isOk

/-- `Result.Try(method)` from `src/result/result.ts` (lines 408-414):
run the fallible thunk inside try/catch; a normal return `v` becomes
`Ok(v)` and a thrown fault becomes `Error(captured fault)`. The thunk's
behavior is embedded as an `Except` value and `Try` itself lives in
`Except` so that propagating a fault is expressible. -/
def Try {α : Type} (method : Except JSError α) : Except JSError (ResultTS α) :=
  tryCatch (method.map (fun v => Ok (some v)))
    (fun e => pure (Error (captureThrown e)))

/-- `Result.FromPromise(promise)` from `src/result/result.ts`
(lines 444-450): await the promise inside try/catch; a resolution becomes
`Ok`, a rejection becomes `Error(captured fault)`. The awaited promise's
outcome is embedded as an `Except` value. -/
def FromPromise {α : Type} (promise : Except JSError α) :
    Except JSError (ResultTS α) :=
  tryCatch (promise.map (fun v => Ok (some v)))
    (fun e => pure (Error (captureThrown e)))

end ResultTS

/-- The `Maybe<Type>` class of `src/maybe/maybe.ts`: a private constructor
storing `Just<Type> | Nothing`, represented by the stored runtime value. -/
structure MaybeTS where
  value : TSVal
deriving DecidableEq, Repr

namespace MaybeTS

/-- `Maybe.Just(value)` from `src/maybe/maybe.ts`: `new Maybe(value)`; the
`Just<Type>` parameter type excludes nullish values, recorded as a side
condition by callers. -/
def Just (v : TSVal) : MaybeTS := ⟨v⟩

/-- `Maybe.Nothing()` from `src/maybe/maybe.ts`: `new Maybe()`, whose
constructor defaults the stored value to `undefined`. -/
def Nothing : MaybeTS := ⟨.jsUndefined⟩

/-- `Maybe.isNothing()` from `src/maybe/maybe.ts` (lines 16-18):
`this.value == null`. -/
def isNothing (m : MaybeTS) : Bool := m.value.isNullish

/-- `Maybe.isJust()` from `src/maybe/maybe.ts` (lines 13-15):
`!this.isNothing()`. -/
def isJust (m : MaybeTS) : Bool := !m.isNothing

/-- `Maybe.matchWith(pattern)` from `src/maybe/maybe.ts`: run the `Just`
handler on the stored value when `isJust()`, else the `Nothing` handler. -/
def matchWith {β : Type} (m : MaybeTS) (just : TSVal → β) (nothing : Unit → β) :
    β :=
  if m.isJust then just m.value else nothing ()

/-- `Maybe.getOrThrow()` from `src/maybe/maybe.ts` (lines 34-41): match
with a `Just` handler returning the value and a `Nothing` handler that
throws `new Error('tried to get a maybe value that was nothing')`; the
throw is embedded in `Except`. -/
def getOrThrow (m : MaybeTS) : Except String TSVal :=
  m.matchWith (fun v => .ok v)
    (fun _ => .error "tried to get a maybe value that was nothing")

/-- `Maybe.getOrElse(defaultValue)` from `src/maybe/maybe.ts`: match with
a `Just` handler returning the value and a `Nothing` handler returning the
supplied default; no throw is possible. -/
def getOrElse (m : MaybeTS) (defaultValue : TSVal) : TSVal :=
  m.matchWith (fun v => v) (fun _ => defaultValue)

end MaybeTS

namespace GleamMaybe

/-- `is_just` from `src/gleam/src/folklore/maybe.gleam`: case split on the
Gleam `Option`. -/
def is_just {α : Type} (maybe : Option α) : Bool :=
  match maybe with
  | some _ => true
  | none => false

/-- `is_nothing` from `src/gleam/src/folklore/maybe.gleam`: case split on
the Gleam `Option`. -/
def is_nothing {α : Type} (maybe : Option α) : Bool :=
  match maybe with
  | some _ => false
  | none => true

end GleamMaybe

/-- The historical generic `Result<T, E>` class of `src/unnamed/part_018`:
a private constructor storing both payload slots with no discriminant
flag (`Option.none` models a nullish slot). -/
structure ResultH (α ε : Type) where
  value : Option α
  error : Option ε
deriving DecidableEq, Repr

namespace ResultH

/-- `Result.Ok(value)` from `src/unnamed/part_018` (lines 41-43):
`new Result(value, undefined)`; the parameter itself may be nullish
(`none`), e.g. `Ok(undefined)`. -/
def Ok {α ε : Type} (v : Option α) : ResultH α ε := ⟨v, none⟩

/-- `Result.Error(error)` from `src/unnamed/part_018` (lines 45-47):
`new Result(undefined, error)`. -/
def Error {α ε : Type} (e : ε) : ResultH α ε := ⟨none, some e⟩

/-- `Result.isOk()` from `src/unnamed/part_018` (lines 10-12):
`this.value != null`. -/
def isOk {α ε : Type} (r : ResultH α ε) : Bool := r.value.isSome

/-- `Result.isError()` from `src/unnamed/part_018` (lines 14-16):
`this.error != null`. -/
def isError {α ε : Type} (r : ResultH α ε) : Bool := r.error.isSome

/-- `Result.match(ok, error)` from `src/unnamed/part_018` (lines 18-21):
dispatch on `isOk()`, passing the stored (possibly nullish) slot to the
chosen handler. -/
def matchOn {α ε β : Type} (r : ResultH α ε) (ok : Option α → β)
    (error : Option ε → β) : β :=
  if r.isOk then ok r.value else error r.error

end ResultH

end Folklore

namespace Folklore

/-- Claim C2: `recover` on `Ok(v)` returns the receiver unchanged and never
invokes the recovery closure (state unchanged for every closure); on
`Error(e)`, when the recovery returns the absent marker nil the result is
the original `Error(e)` with the same error value, and when it returns a
present value `w` the result is `Ok(w)`. -/
theorem C2_recover_spec {α ε σ : Type} (v w : α) (e : ε)
    (rec : ε → σ → Option α × σ) (s s' : σ) :
    (∀ g : ε → σ → Option α × σ,
        SResult.recover (SResult.success v) g s = (SResult.success v, s)) ∧
    (rec e s = (none, s') →
        SResult.recover (SResult.failure e) rec s
          = ((SResult.failure e : SResult α ε), s')) ∧
    (rec e s = (some w, s') →
        SResult.recover (SResult.failure e) rec s = (SResult.success w, s')) := by
  refine ⟨fun g => rfl, ?_, ?_⟩
  · intro h
    simp [SResult.recover, h]
  · intro h
    simp [SResult.recover, h]

/-- Witness for C2 at concrete inputs: a counting recovery that declines
(returns nil) leaves `Error("boom")` intact while bumping the counter
once. -/
theorem C2_recover_spec_witness :
    SResult.recover (SResult.failure "boom")
        (fun (_ : String) (n : Nat) => ((none : Option Int), n + 1)) 0
      = ((SResult.failure "boom" : SResult Int String), 1) := by
  have h := @C2_recover_spec Int String Nat 0 0 "boom"
    (fun _ n => (none, n + 1)) 0 1
  exact h.2.1 rfl

/-- Claim C4: the conversion round trip between the two container types.
`Ok(v).transmute()` is `Some(v)`; `Error(e).transmute()` is `None`;
`None().transmute(as: e)` is `Error(e)`; `Some(v).transmute(as: e)` is
`Ok(v)` (the error argument being a plain, eagerly evaluated value). -/
theorem C4_transmute_round_trip {α ε : Type} (v : α) (e : ε) :
    SResult.transmute (SResult.success v : SResult α ε) = some v ∧
    SResult.transmute (SResult.failure e : SResult α ε) = (none : Option α) ∧
    Option.transmute (none : Option α) e = (SResult.failure e : SResult α ε) ∧
    Option.transmute (some v) e = (SResult.success v : SResult α ε) := by
  exact ⟨rfl, rfl, rfl, rfl⟩

/-- Claim C6: `Result.otherwise` on `Ok(v)` returns `v` and never evaluates
the fallback in any of its three forms (plain value, zero-argument
provider, error-receiving provider: the state is unchanged for every
provider); on `Error(e)` it returns the plain fallback, or exactly one
application of the zero-argument provider, or exactly one application of
the error-receiving provider to the captured error `e`. -/
theorem C6_result_otherwise_spec {α ε σ : Type} (v d : α) (e : ε)
    (p : σ → α × σ) (q : ε → σ → α × σ) (s : σ) :
    (SResult.otherwise (SResult.success v : SResult α ε) d = v) ∧
    (∀ p' : σ → α × σ,
        SResult.otherwiseProvider (SResult.success v : SResult α ε) p' s = (v, s)) ∧
    (∀ q' : ε → σ → α × σ,
        SResult.otherwiseErrorProvider (SResult.success v) q' s = (v, s)) ∧
    (SResult.otherwise (SResult.failure e : SResult α ε) d = d) ∧
    (SResult.otherwiseProvider (SResult.failure e : SResult α ε) p s = p s) ∧
    (SResult.otherwiseErrorProvider (SResult.failure e : SResult α ε) q s = q e s) := by
  exact ⟨rfl, fun p' => rfl, fun q' => rfl, rfl, rfl, rfl⟩

/-- Claim C7: `when(success:failure:)` invokes exactly the handler matching
the active variant with that variant's payload (the equations hold for
every pair of handlers, so the non-matching handler is never invoked), and
returns the original Result unchanged after dispatch. -/
theorem C7_when_spec {α ε σ : Type} (v : α) (e : ε) (sa : α → σ → σ)
    (fa : ε → σ → σ) (s : σ) :
    SResult.when (SResult.success v : SResult α ε) sa fa s
      = (SResult.success v, sa v s) ∧
    SResult.when (SResult.failure e : SResult α ε) sa fa s
      = (SResult.failure e, fa e s) := by
  exact ⟨rfl, rfl⟩

/-- Claim C1 (as stated) is false on `src/unnamed/part_004`: the receiver
`Some(0)` with a transformer returning the plain non-Optional value `null`
yields `Optional.None()` (because the wrap path uses `FromNullable`),
not `Some(null)`. -/
theorem C1_plain_null_counterexample :
    OptionalTS.transform (TSVal.num 0) (fun _ (s : Nat) => (TSVal.jsNull, s)) 0
      ≠ (OptionalTS.SomeMk TSVal.jsNull, 0) := by
  decide

/-- Claim C1 (amended): `transform` on a `None` receiver never invokes the
transformer and returns `None`; on a `Some(v)` receiver the transformer is
invoked exactly once on `v`, and (a) a plain non-Optional, non-nullish
result `w` yields `Some(w)`, (b) a plain nullish result yields `None`
(the wrap path is `FromNullable`), (c) an `Optional` result is returned
as-is, flattened, the decision made by the `HasInstance` runtime test. -/
theorem C1_transform_spec {σ : Type} (v w : TSVal) (f : TSVal → σ → TSVal × σ)
    (s s' : σ) (hv : v.isNullish = false) (hf : f v s = (w, s')) :
    (∀ g : TSVal → σ → TSVal × σ, OptionalTS.transform TSVal.jsUndefined g s
        = (OptionalTS.NoneMk, s)) ∧
    (OptionalTS.HasInstance w = false → w.isNullish = false →
        OptionalTS.transform v f s = (OptionalTS.SomeMk w, s')) ∧
    (OptionalTS.HasInstance w = false → w.isNullish = true →
        OptionalTS.transform v f s = (OptionalTS.NoneMk, s')) ∧
    (∀ u : TSVal, w = OptionalTS.SomeMk u →
        OptionalTS.transform v f s = (OptionalTS.SomeMk u, s')) := by
  refine ⟨fun g => rfl, ?_, ?_, ?_⟩
  · intro hw hwn
    simp [OptionalTS.transform, hv, hf, hw, OptionalTS.FromNullable, hwn]
  · intro hw hwn
    simp [OptionalTS.transform, hv, hf, hw, OptionalTS.FromNullable, hwn]
  · intro u hu
    subst hu
    simp [OptionalTS.transform, hv, hf, OptionalTS.SomeMk, OptionalTS.HasInstance]

/-- Witness for the amended C1 theorem at concrete inputs: transforming
`Some(1)` with a transformer that returns the plain value `2` and bumps a
counter yields `Some(2)` with the counter bumped once. -/
theorem C1_transform_spec_witness :
    OptionalTS.transform (TSVal.num 1) (fun _ (s : Nat) => (TSVal.num 2, s + 1)) 0
      = (OptionalTS.SomeMk (TSVal.num 2), 1) := by
  have h := @C1_transform_spec Nat (TSVal.num 1) (TSVal.num 2)
    (fun _ s => (TSVal.num 2, s + 1)) 0 1 rfl rfl
  exact h.2.1 rfl rfl

/-- Claim C5: `Some(v).otherwise(fallback)` returns `v` with no fallback
(of either form) ever evaluated (the callback state is unchanged for every
fallback); `None().otherwise(w)` returns the plain value `w`; and
`None().otherwise(p)` for a provider `p` equals exactly one application of
`p` to the incoming state. -/
theorem C5_otherwise_spec {σ : Type} (v w : TSVal) (p : σ → TSVal × σ) (s : σ)
    (hv : v.isNullish = false) :
    (∀ fb : OptionalTS.Fallback σ, OptionalTS.otherwise v fb s = (v, s)) ∧
    (OptionalTS.otherwise TSVal.jsUndefined (OptionalTS.Fallback.value w) s = (w, s)) ∧
    (OptionalTS.otherwise TSVal.jsUndefined (OptionalTS.Fallback.provider p) s = p s) := by
  refine ⟨fun fb => ?_, rfl, rfl⟩
  simp [OptionalTS.otherwise, hv]

/-- Witness for C5 at concrete inputs: `Some(5).otherwise` with a counting
provider returns `5` without bumping the counter, and `None().otherwise`
with the same provider returns its value with the counter bumped once. -/
theorem C5_otherwise_spec_witness :
    OptionalTS.otherwise (TSVal.num 5)
        (OptionalTS.Fallback.provider (fun (n : Nat) => (TSVal.num 7, n + 1))) 0
      = (TSVal.num 5, 0) ∧
    OptionalTS.otherwise TSVal.jsUndefined
        (OptionalTS.Fallback.provider (fun (n : Nat) => (TSVal.num 7, n + 1))) 0
      = (TSVal.num 7, 1) := by
  have h := @C5_otherwise_spec Nat (TSVal.num 5) (TSVal.num 9)
    (fun n => (TSVal.num 7, n + 1)) 0 rfl
  exact ⟨h.1 _, h.2.2⟩

/-- Claim C3: `Result.Try` and `Result.FromPromise` never propagate a fault
to their caller (every outcome of the wrapped body yields a plain `.ok`
result); a body returning `v` yields `Ok(v)` and a body raising a fault
yields `Error` wrapping the captured fault. -/
theorem C3_fault_containment {α : Type} (v : α) (e : JSError)
    (body promise : Except JSError α) :
    (∃ r : ResultTS α, ResultTS.Try body = Except.ok r) ∧
    (∃ r : ResultTS α, ResultTS.FromPromise promise = Except.ok r) ∧
    (ResultTS.Try (Except.ok v) = Except.ok (ResultTS.Ok (some v))) ∧
    (ResultTS.Try (Except.error e : Except JSError α)
      = Except.ok (ResultTS.Error (captureThrown e))) ∧
    (ResultTS.FromPromise (Except.ok v) = Except.ok (ResultTS.Ok (some v))) ∧
    (ResultTS.FromPromise (Except.error e : Except JSError α)
      = Except.ok (ResultTS.Error (captureThrown e))) := by
  refine ⟨?_, ?_, rfl, rfl, rfl, rfl⟩
  · cases body with
    | ok v' => exact ⟨ResultTS.Ok (some v'), rfl⟩
    | error e' => exact ⟨ResultTS.Error (captureThrown e'), rfl⟩
  · cases promise with
    | ok v' => exact ⟨ResultTS.Ok (some v'), rfl⟩
    | error e' => exact ⟨ResultTS.Error (captureThrown e'), rfl⟩

/-- Claim C8: the presence predicates are mutually exclusive and
collectively exhaustive on every container value: `isOk`/`isError` on the
`Result` class of `src/result/result.ts`, `isJust`/`isNothing` on the
`Maybe` class, and `is_just`/`is_nothing` on the Gleam Option variant each
disagree as booleans, so exactly one of each pair is true. -/
theorem C8_predicates_exclusive_exhaustive {α : Type} (r : ResultTS α)
    (m : MaybeTS) (g : Option α) :
    ResultTS.isOk r ≠ ResultTS.isError r ∧
    MaybeTS.isJust m ≠ MaybeTS.isNothing m ∧
    GleamMaybe.is_just g ≠ GleamMaybe.is_nothing g := by
  refine ⟨?_, ?_, ?_⟩
  · simp [ResultTS.isOk, ResultTS.isError]
  · simp [MaybeTS.isJust]
  · cases g <;> simp [GleamMaybe.is_just, GleamMaybe.is_nothing]

/-- Witness for C8 at concrete inputs: the three predicate pairs disagree
on `Ok(0)`, `Nothing()` and `Some(0)` respectively. -/
theorem C8_predicates_witness :
    ResultTS.isOk (ResultTS.Ok (some (0 : Int)))
      ≠ ResultTS.isError (ResultTS.Ok (some (0 : Int))) ∧
    MaybeTS.isJust MaybeTS.Nothing ≠ MaybeTS.isNothing MaybeTS.Nothing ∧
    GleamMaybe.is_just (some (0 : Int)) ≠ GleamMaybe.is_nothing (some (0 : Int)) :=
  C8_predicates_exclusive_exhaustive (ResultTS.Ok (some 0)) MaybeTS.Nothing (some 0)

/-- Claim C9: `Maybe.getOrThrow` raises exactly on `Nothing` (it has no
fallback parameter) and returns the wrapped value on `Just(v)`; the
fallback-taking extraction `getOrElse` never raises and returns the
default on `Nothing`. -/
theorem C9_getOrThrow_spec (v d : TSVal) (hv : v.isNullish = false) :
    MaybeTS.getOrThrow (MaybeTS.Just v) = Except.ok v ∧
    MaybeTS.getOrThrow MaybeTS.Nothing
      = Except.error "tried to get a maybe value that was nothing" ∧
    MaybeTS.getOrElse (MaybeTS.Just v) d = v ∧
    MaybeTS.getOrElse MaybeTS.Nothing d = d := by
  refine ⟨?_, rfl, ?_, rfl⟩
  · simp [MaybeTS.getOrThrow, MaybeTS.matchWith, MaybeTS.isJust,
      MaybeTS.isNothing, MaybeTS.Just, hv]
  · simp [MaybeTS.getOrElse, MaybeTS.matchWith, MaybeTS.isJust,
      MaybeTS.isNothing, MaybeTS.Just, hv]

/-- Witness for C9 at concrete inputs: `Just(3).getOrThrow()` returns `3`
and `Nothing().getOrThrow()` raises. -/
theorem C9_getOrThrow_spec_witness :
    MaybeTS.getOrThrow (MaybeTS.Just (TSVal.num 3)) = Except.ok (TSVal.num 3) ∧
    MaybeTS.getOrThrow MaybeTS.Nothing
      = Except.error "tried to get a maybe value that was nothing" := by
  have h := C9_getOrThrow_spec (TSVal.num 3) (TSVal.num 0) rfl
  exact ⟨h.1, h.2.1⟩

/-- Claim C10: in the historical `Result<T, E>` variant of
`src/unnamed/part_018`, `isOk()` tests the stored success slot for
non-nullishness and `isError()` the stored error slot, so the value
`Ok(undefined)` makes both predicates false (the pair is not collectively
exhaustive there) and `match` dispatches it to the error branch, passing
the nullish stored error. -/
theorem C10_historical_predicates {α ε β : Type} (r : ResultH α ε)
    (ok : Option α → β) (err : Option ε → β) :
    ResultH.isOk r = r.value.isSome ∧
    ResultH.isError r = r.error.isSome ∧
    ResultH.isOk (ResultH.Ok (none : Option α) : ResultH α ε) = false ∧
    ResultH.isError (ResultH.Ok (none : Option α) : ResultH α ε) = false ∧
    ResultH.matchOn (ResultH.Ok (none : Option α) : ResultH α ε) ok err
      = err none := by
  exact ⟨rfl, rfl, rfl, rfl, rfl⟩

end Folklore
